import Mathlib

/-!
Verification of the `dynamic-datalist` web component
(`src/dynamic-datalist.js`, class `DynamicDatalistElement`).

The development shallowly embeds the parts of the component that the
checked properties talk about:

* a model of JavaScript values as decoded from JSON response bodies
  (`JSValue`), together with JS truthiness, `Array.isArray`, property
  access (`data.options`) and string coercion;
* the request construction performed by `__fetchOptions`
  (`URLSearchParams` serialization for GET, `JSON.stringify` for POST);
* the success/failure processing of `__fetchOptions` including
  `__updateDatalist` and the events emitted via `__emitEvent`;
* the `keyup` handler `__handleKeyup` with its debounce timer, and
  `disconnectedCallback`, as a small state machine over event traces;
* the attribute/property reflection (`endpoint`, `method`, `key`
  accessors) and `_upgradeProperty` as run from `connectedCallback`.

The host DOM, the network transport and the JSON decoder are external
collaborators: they appear as inputs (`FetchOutcome`, keyup events)
rather than as modelled code.
-/

namespace DynamicDatalist

/-! ## JavaScript value model

Decoded JSON bodies (`await response.json()`) and the values flowing
into DOM assignments are modelled as a mutual inductive: a JS value,
a JS array of values, and a JS object field list. -/

mutual

inductive JSValue where
  | undefined
  | null
  | bool (b : Bool)
  | num (n : Int)
  | str (s : String)
  | arr (elems : JSList)
  | obj (fields : JSFields)
deriving Repr, DecidableEq

inductive JSList where
  | nil
  | cons (head : JSValue) (tail : JSList)
deriving Repr, DecidableEq

inductive JSFields where
  | nil
  | cons (name : String) (val : JSValue) (tail : JSFields)
deriving Repr, DecidableEq

end

/-- Elements of a JS array, as a Lean list. -/
def JSList.toList : JSList → List JSValue
  | .nil => []
  | .cons v rest => v :: rest.toList

/-- Build a JS array of strings from a Lean list of strings. -/
def JSList.ofStrings : List String → JSList
  | [] => .nil
  | s :: rest => .cons (.str s) (JSList.ofStrings rest)

mutual

/-- `Array.prototype.toString` (a comma join of the elements). -/
def jsArrToString : JSList → String
  | .nil => ""
  | .cons v .nil => jsElemToString v
  | .cons v rest => jsElemToString v ++ "," ++ jsArrToString rest
termination_by structural xs => xs

/-- How `Array.prototype.join` renders a single element: `null` and
`undefined` render empty, everything else by its string coercion. -/
def jsElemToString : JSValue → String
  | .undefined => ""
  | .null => ""
  | .bool b => cond b "true" "false"
  | .num n => toString n
  | .str s => s
  | .arr xs => jsArrToString xs
  | .obj _ => "[object Object]"
termination_by structural v => v

end

/-- JS `ToString` coercion, as applied by DOM assignments such as
`option.value = value` in `__updateDatalist`. -/
def jsToString : JSValue → String
  | .undefined => "undefined"
  | .null => "null"
  | .bool b => cond b "true" "false"
  | .num n => toString n
  | .str s => s
  | .arr xs => jsArrToString xs
  | .obj _ => "[object Object]"

/-- First binding of a field name in a JS object (object keys are
unique, so first binding is the binding). -/
def lookupField : JSFields → String → Option JSValue
  | .nil, _ => none
  | .cons k v rest, name => if k = name then some v else lookupField rest name

/-- JS truthiness, as used by `if (data.options && ...)`.  Note that an
array is always truthy, even when empty. -/
def truthy : JSValue → Bool
  | .undefined => false
  | .null => false
  | .bool b => b
  | .num n => n != 0
  | .str s => s != ""
  | .arr _ => true
  | .obj _ => true

/-- `Array.isArray`. -/
def isArray : JSValue → Bool
  | .arr _ => true
  | _ => false

/-- JS property access `data.options`: throws a `TypeError` on `null`
and `undefined`, yields `undefined` for an absent field or a
non-object receiver. -/
def jsGet : JSValue → String → Except String JSValue
  | .null, _ => .error "Cannot read properties of null"
  | .undefined, _ => .error "Cannot read properties of undefined"
  | .obj fs, name =>
    .ok (match lookupField fs name with
         | some v => v
         | none => .undefined)
  | _, _ => .ok .undefined

/-- Elements of a value known to be an array (`__updateDatalist` is
only reached behind the `Array.isArray` guard). -/
def jsArrElems : JSValue → JSList
  | .arr xs => xs
  | _ => .nil

/-! ## Request construction (`__fetchOptions`, lines 490-509)

For GET the code builds `new URLSearchParams(payload)` over the
single-key payload and appends `?` plus its serialization to the
endpoint; for POST it sends `JSON.stringify(payload)` with a
`Content-Type: application/json` header. -/

/-- UTF-8 encoding of a character, as a list of byte values. -/
def utf8Bytes (c : Char) : List Nat :=
  let n := c.toNat
  if n < 128 then [n]
  else if n < 2048 then [192 + n / 64, 128 + n % 64]
  else if n < 65536 then [224 + n / 4096, 128 + n / 64 % 64, 128 + n % 64]
  else [240 + n / 262144, 128 + n / 4096 % 64, 128 + n / 64 % 64, 128 + n % 64]

/-- Uppercase hexadecimal digit, used by percent-encoding. -/
def hexUpperDigit (n : Nat) : Char :=
  if n < 10 then Char.ofNat (48 + n) else Char.ofNat (55 + n)

/-- Lowercase hexadecimal digit, used by JSON control-character
escapes. -/
def hexLowerDigit (n : Nat) : Char :=
  if n < 10 then Char.ofNat (48 + n) else Char.ofNat (87 + n)

/-- Bytes the `application/x-www-form-urlencoded` serializer leaves
unescaped: ASCII alphanumerics and `*`, `-`, `.`, `_`. -/
def urlencodedSafeByte (n : Nat) : Bool :=
  decide ((48 ≤ n ∧ n ≤ 57) ∨ (65 ≤ n ∧ n ≤ 90) ∨ (97 ≤ n ∧ n ≤ 122) ∨
          n = 42 ∨ n = 45 ∨ n = 46 ∨ n = 95)

/-- One byte of `application/x-www-form-urlencoded` output: space
becomes `+`, safe bytes stay, the rest is percent-encoded. -/
def percentEncodeByte (n : Nat) : String :=
  if n = 32 then "+"
  else if urlencodedSafeByte n then String.singleton (Char.ofNat n)
  else "%" ++ String.singleton (hexUpperDigit (n / 16 % 16)) ++
       String.singleton (hexUpperDigit (n % 16))

/-- `application/x-www-form-urlencoded` encoding of a string, as
applied by `URLSearchParams` to each name and value. -/
def formUrlencode (s : String) : String :=
  String.join (((s.toList.map utf8Bytes).flatten).map percentEncodeByte)

/-- `URLSearchParams.prototype.toString` over a list of name/value
pairs. -/
def urlSearchParamsToString (pairs : List (String × String)) : String :=
  String.intercalate "&"
    (pairs.map fun p => formUrlencode p.1 ++ "=" ++ formUrlencode p.2)

/-- `JSON.stringify` escaping of a single character inside a string
literal. -/
def jsonEscapeChar (c : Char) : String :=
  if c = '"' then "\\\""
  else if c = '\\' then "\\\\"
  else if c.toNat = 8 then "\\b"
  else if c.toNat = 9 then "\\t"
  else if c.toNat = 10 then "\\n"
  else if c.toNat = 12 then "\\f"
  else if c.toNat = 13 then "\\r"
  else if c.toNat < 32 then
    "\\u00" ++ String.singleton (hexLowerDigit (c.toNat / 16)) ++
    String.singleton (hexLowerDigit (c.toNat % 16))
  else String.singleton c

/-- `JSON.stringify` of a string value. -/
def jsonQuote (s : String) : String :=
  "\"" ++ String.join (s.toList.map jsonEscapeChar) ++ "\""

/-- `JSON.stringify` of an object whose values are strings, such as
the payload `\x7b [this.key]: query \x7d`. -/
def jsonStringifyObj (fields : List (String × String)) : String :=
  "\x7b" ++
    String.intercalate ","
      (fields.map fun p => jsonQuote p.1 ++ ":" ++ jsonQuote p.2) ++
  "\x7d"

/-- `String.prototype.toLowerCase` over the ASCII range (the range
relevant to the `get`/`post` comparison), written over the character
list so that it evaluates by kernel reduction. -/
def toLowerString (s : String) : String :=
  String.mk (s.toList.map Char.toLower)

/-- The HTTP request issued by `__fetchOptions`. -/
inductive Request where
  | get (url : String)
  | post (url : String) (contentType : String) (body : String)
deriving Repr, DecidableEq

/-- Request construction in `__fetchOptions`: the configured method is
lower-cased; `post` sends the JSON payload to the endpoint, anything
else issues a GET with the payload as the query string. -/
def buildRequest (endpoint method key query : String) : Request :=
  if toLowerString method = "post" then
    .post endpoint "application/json" (jsonStringifyObj [(key, query)])
  else
    .get (endpoint ++ "?" ++ urlSearchParamsToString [(key, query)])

/-! ## `__fetchOptions` outcome processing (lines 490-527)

The network and the JSON decoder are external collaborators, so the
outcome of `await fetch(...)` / `await response.json()` is an input:
either the fetch rejects, or a response arrives with an `ok` flag, a
status, and a body that decodes to a JS value or fails to decode. -/

/-- Outcome of `await response.json()`. -/
inductive BodyOutcome where
  | parseFailure (msg : String)
  | json (data : JSValue)
deriving Repr, DecidableEq

/-- Outcome of `await fetch(...)`. -/
inductive FetchOutcome where
  | networkFailure (msg : String)
  | httpResponse (ok : Bool) (status : Nat) (body : BodyOutcome)
deriving Repr, DecidableEq

/-- An event dispatched by `__emitEvent`: `ready`, `update` (with
`detail.options`, the decoded options array), or `error` (with
`detail.error`, modelled by the failure message). -/
inductive EmittedEvent where
  | ready
  | update (options : JSList)
  | error (msg : String)
deriving Repr, DecidableEq

/-- One `<option>` element appended by `__updateDatalist`: the code
assigns the fetched value to both `option.value` and
`option.textContent` (the displayed label). -/
structure OptionEntry where
  value : String
  textContent : String
deriving Repr, DecidableEq

/-- `__updateDatalist` (lines 529-543): clear the datalist and append
one option per element, in order, carrying the element (coerced to a
string by the DOM assignment) as both value and text content.  The
final contents do not depend on the previous contents. -/
def updateDatalist (options : JSList) : List OptionEntry :=
  options.toList.map fun v => { value := jsToString v, textContent := jsToString v }

/-- Everything observable about one `__fetchOptions` call: the request
it issued, the `console.warn` lines, the events dispatched, and the
datalist contents afterwards. -/
structure FetchResult where
  request : Request
  warnings : List String
  events : List EmittedEvent
  datalist : List OptionEntry
deriving Repr, DecidableEq

/-- The `console.warn` prefix added by the static `__warn` helper. -/
def warnMessage (msg : String) : String :=
  "<dynamic-datalist>: " ++ msg

/-- The `try` block of `__fetchOptions`: non-`ok` responses raise
`HTTP error! status: ...`, a decode failure raises, and on a decoded
body the `data.options && Array.isArray(data.options)` guard decides
between replacing the datalist (plus an `update` event) and doing
nothing at all. -/
def fetchOptionsTry (outcome : FetchOutcome) (datalist : List OptionEntry) :
    Except String (List OptionEntry × List EmittedEvent) :=
  match outcome with
  | .networkFailure msg => .error msg
  | .httpResponse ok status body =>
    if ok then
      match body with
      | .parseFailure msg => .error msg
      | .json data =>
        match jsGet data "options" with
        | .error msg => .error msg
        | .ok opts =>
          if truthy opts && isArray opts then
            .ok (updateDatalist (jsArrElems opts), [.update (jsArrElems opts)])
          else
            .ok (datalist, [])
    else
      .error ("HTTP error! status: " ++ toString status)

/-- `__fetchOptions` (lines 490-527): build the request from the
configuration read at call time, then run the `try` block; the `catch`
turns any failure into a `console.warn` line plus an `error` event and
leaves the datalist untouched.  The function is total: no failure
escapes the `catch`. -/
def fetchOptions (endpoint method key query : String) (outcome : FetchOutcome)
    (datalist : List OptionEntry) : FetchResult :=
  let req := buildRequest endpoint method key query
  match fetchOptionsTry outcome datalist with
  | .ok (dl, evs) =>
    { request := req, warnings := [], events := evs, datalist := dl }
  | .error msg =>
    { request := req
      warnings := [warnMessage ("Failed to fetch options: " ++ msg)]
      events := [.error msg]
      datalist := datalist }

/-- The failure message raised inside the `try` block of
`__fetchOptions` for the three failure kinds of the error-handling
contract: transport failure, non-`ok` status, body-decode failure.
`none` means the outcome is not of one of those kinds. -/
def failureMsg : FetchOutcome → Option String
  | .networkFailure msg => some msg
  | .httpResponse ok status body =>
    if ok then
      match body with
      | .parseFailure msg => some msg
      | .json _ => none
    else
      some ("HTTP error! status: " ++ toString status)

/-! ## `__handleKeyup`, the debounce timer, and `disconnectedCallback`

`__handleKeyup` (lines 545-562) runs on every key-release while the
listener is attached: navigation/submission key codes (38, 40, 9, 13)
return immediately; otherwise `clearTimeout(this.__debounceTimer)`
runs unconditionally and, when the input value is non-empty, a new
250 ms timer is scheduled whose callback fetches the value captured
here.  `disconnectedCallback` (lines 358-362) removes the keyup
listener and nothing else.  This is modelled as a state machine over
traces of keyups, passage of time, and detachment. -/

/-- Key codes ignored by `__handleKeyup`: arrow up/down, tab, enter. -/
def ignoredKey (code : Nat) : Bool :=
  code == 38 || code == 40 || code == 9 || code == 13

/-- The debounce quiet period, in milliseconds (`setTimeout(..., 250)`). -/
def debounceDelay : Nat := 250

/-- Widget-side state relevant to the keyup/fetch cycle.  `now` is the
current time; `pendingTimer` holds the deadline and captured value of
the single outstanding `setTimeout`, if any; `fetches` records the
values passed to `__fetchOptions`, in order. -/
structure WidgetState where
  inputValue : String
  pendingTimer : Option (Nat × String)
  listenerAttached : Bool
  now : Nat
  fetches : List String
deriving Repr, DecidableEq

/-- External stimuli: a key release (carrying the input value the DOM
holds when the handler runs), passage of time, and detachment of the
element from the document. -/
inductive WidgetAction where
  | keyup (code : Nat) (value : String)
  | elapse (t : Nat)
  | disconnect
deriving Repr, DecidableEq

/-- One step of the widget.  A keyup updates the input value (the DOM
does this whether or not any listener is attached); the handler then
runs only while the listener is attached, and follows `__handleKeyup`.
Passage of time fires the pending timer when its deadline is reached,
appending the captured value to `fetches`.  Detachment only removes
the listener (`disconnectedCallback` does not clear the timer). -/
def step (s : WidgetState) : WidgetAction → WidgetState
  | .keyup code v =>
    if s.listenerAttached = false then { s with inputValue := v }
    else if ignoredKey code then { s with inputValue := v }
    else if v = "" then { s with inputValue := v, pendingTimer := none }
    else { s with inputValue := v,
                  pendingTimer := some (s.now + debounceDelay, v) }
  | .elapse t =>
    match s.pendingTimer with
    | some dv =>
      if dv.1 ≤ s.now + t then
        { s with now := s.now + t, pendingTimer := none,
                 fetches := s.fetches ++ [dv.2] }
      else
        { s with now := s.now + t }
    | none => { s with now := s.now + t }
  | .disconnect => { s with listenerAttached := false }

/-- Run a trace of actions. -/
def run (s : WidgetState) (actions : List WidgetAction) : WidgetState :=
  actions.foldl step s

/-- A keystroke that `__handleKeyup` acts on: not an ignored key code
and a non-empty input value. -/
def qualifyingKeystroke (code : Nat) (v : String) : Bool :=
  !ignoredKey code && v != ""

/-- A rapid burst: each triple is a keyup (code and input value)
followed by a gap before the next stimulus. -/
def burst : List (Nat × String × Nat) → List WidgetAction
  | [] => []
  | (code, v, gap) :: rest => .keyup code v :: .elapse gap :: burst rest

/-- A freshly initialized widget: listener attached, empty input, no
pending timer, nothing fetched. -/
def initialWidget : WidgetState :=
  { inputValue := "", pendingTimer := none, listenerAttached := true,
    now := 0, fetches := [] }

/-! ## Attribute/property reflection and `_upgradeProperty`

The three configuration accessors (lines 386-430) reflect between the
`endpoint`, `method` and `key` attributes and the same-named
properties; `method` and `key` reads fall back to `get` / `query`
whenever the attribute is absent or empty (`getAttribute(...) || def`).
`_upgradeProperty` (lines 374-380) is run from `connectedCallback` for
each of the three names: when an own property shadows the accessor
pair (a value assigned before the element was upgraded), it is
deleted and re-assigned through the setter.  Own property values and
setter arguments are `Option String`, `none` standing for
`null`/`undefined` (which the setters turn into attribute removal). -/

/-- The element's three configuration attributes; `none` means the
attribute is absent. -/
structure AttrStore where
  endpoint : Option String
  method : Option String
  key : Option String
deriving Repr, DecidableEq

/-- The `endpoint` setter: `null`/`undefined` removes the attribute,
anything else sets it. -/
def setEndpointProp (a : AttrStore) : Option String → AttrStore
  | none => { a with endpoint := none }
  | some s => { a with endpoint := some s }

/-- The `method` setter. -/
def setMethodProp (a : AttrStore) : Option String → AttrStore
  | none => { a with method := none }
  | some s => { a with method := some s }

/-- The `key` setter. -/
def setKeyProp (a : AttrStore) : Option String → AttrStore
  | none => { a with key := none }
  | some s => { a with key := some s }

/-- The `endpoint` getter: `this.getAttribute('endpoint')`. -/
def getEndpointProp (a : AttrStore) : Option String :=
  a.endpoint

/-- The `method` getter: `this.getAttribute('method') || 'get'` (an
absent or empty attribute reads as the default). -/
def getMethodProp (a : AttrStore) : String :=
  match a.method with
  | some s => if s = "" then "get" else s
  | none => "get"

/-- The `key` getter: `this.getAttribute('key') || 'query'`. -/
def getKeyProp (a : AttrStore) : String :=
  match a.key with
  | some s => if s = "" then "query" else s
  | none => "query"

/-- An element before/after upgrade: its attributes plus any own
properties shadowing the three accessors (`some pv` means an own
property holding `pv` was assigned before the element was wired up). -/
structure DDElement where
  attrs : AttrStore
  ownEndpoint : Option (Option String) := none
  ownMethod : Option (Option String) := none
  ownKey : Option (Option String) := none
deriving Repr, DecidableEq

/-- `_upgradeProperty('endpoint')`: if an own property exists, read
its value, delete it, and re-assign through the setter. -/
def upgradeEndpoint (el : DDElement) : DDElement :=
  match el.ownEndpoint with
  | some pv => { el with ownEndpoint := none, attrs := setEndpointProp el.attrs pv }
  | none => el

/-- `_upgradeProperty('method')`. -/
def upgradeMethod (el : DDElement) : DDElement :=
  match el.ownMethod with
  | some pv => { el with ownMethod := none, attrs := setMethodProp el.attrs pv }
  | none => el

/-- `_upgradeProperty('key')`. -/
def upgradeKey (el : DDElement) : DDElement :=
  match el.ownKey with
  | some pv => { el with ownKey := none, attrs := setKeyProp el.attrs pv }
  | none => el

/-- The property-upgrade portion of `connectedCallback` (lines
338-342): upgrade `endpoint`, then `method`, then `key`. -/
def connectUpgrade (el : DDElement) : DDElement :=
  upgradeKey (upgradeMethod (upgradeEndpoint el))

/-! ## Concrete instances used by witnesses and counterexamples -/

/-- A widget mid-interaction: listener attached, a pending debounce
timer (deadline 250, captured value `ab`), nothing fetched yet. -/
def busyWidget : WidgetState :=
  { inputValue := "ab", pendingTimer := some (250, "ab"),
    listenerAttached := true, now := 10, fetches := [] }

/-- A decoded response body field list holding
`options: ["a", "b", "c"]`. -/
def c1Fields : JSFields :=
  .cons "options" (.arr (JSList.ofStrings ["a", "b", "c"])) .nil

/-- An element whose three configuration properties were all assigned
(as strings) before the element was upgraded. -/
def preinitElement (a : AttrStore) (ve vm vk : String) : DDElement :=
  { attrs := a, ownEndpoint := some (some ve),
    ownMethod := some (some vm), ownKey := some (some vk) }

/-! ## Helper lemmas -/

theorem string_append_assoc (a b c : String) : a ++ b ++ c = a ++ (b ++ c) := by
  apply String.ext
  simp [String.data_append]

theorem intercalate_singleton (s x : String) : s.intercalate [x] = x := rfl

theorem toList_ofStrings (opts : List String) :
    (JSList.ofStrings opts).toList = opts.map JSValue.str := by
  induction opts with
  | nil => rfl
  | cons s rest ih => simp [JSList.ofStrings, JSList.toList, ih]

theorem updateDatalist_ofStrings (opts : List String) :
    updateDatalist (JSList.ofStrings opts) =
      opts.map (fun s => { value := s, textContent := s }) := by
  simp only [updateDatalist, toList_ofStrings, List.map_map]
  exact List.map_congr_left fun a _ => rfl

theorem qualifying_split (code : Nat) (v : String)
    (h : qualifyingKeystroke code v = true) :
    ignoredKey code = false ∧ v ≠ "" := by
  simpa [qualifyingKeystroke] using h

theorem run_cons (s : WidgetState) (a : WidgetAction) (l : List WidgetAction) :
    run s (a :: l) = run (step s a) l := rfl

theorem step_keyup_schedules (s : WidgetState) (code : Nat) (v : String)
    (hl : s.listenerAttached = true) (hi : ignoredKey code = false)
    (hv : v ≠ "") :
    step s (.keyup code v) =
      { s with inputValue := v,
               pendingTimer := some (s.now + debounceDelay, v) } := by
  simp [step, hl, hi, hv]

theorem step_elapse_fires (s : WidgetState) (t d : Nat) (v : String)
    (hp : s.pendingTimer = some (d, v)) (hd : d ≤ s.now + t) :
    step s (.elapse t) =
      { s with now := s.now + t, pendingTimer := none,
               fetches := s.fetches ++ [v] } := by
  simp [step, hp, hd]

theorem step_elapse_waits (s : WidgetState) (t d : Nat) (v : String)
    (hp : s.pendingTimer = some (d, v)) (hd : ¬ d ≤ s.now + t) :
    step s (.elapse t) = { s with now := s.now + t } := by
  simp [step, hp, hd]

/-! ## Claim theorems -/

/-- C1: for every successful fetch whose decoded body has an `options`
field holding an array of strings, `__fetchOptions` replaces the
datalist contents with exactly that sequence, in order, one option per
string carrying the string as both its value and its text content, and
emits a single `update` event carrying that options array (and no
warning). -/
theorem fetch_success_replaces_list_and_emits_update
    (e m k q : String) (status : Nat) (fields : JSFields)
    (opts : List String) (dl : List OptionEntry)
    (hopts : lookupField fields "options" = some (.arr (JSList.ofStrings opts))) :
    fetchOptions e m k q (.httpResponse true status (.json (.obj fields))) dl =
      { request := buildRequest e m k q,
        warnings := [],
        events := [.update (JSList.ofStrings opts)],
        datalist := opts.map (fun s => { value := s, textContent := s }) } := by
  simp [fetchOptions, fetchOptionsTry, jsGet, hopts, truthy, isArray,
        jsArrElems, updateDatalist_ofStrings]

/-- Witness for C1, at the spec's example body
`options: ["a", "b", "c"]`. -/
theorem fetch_success_replaces_list_and_emits_update_witness :
    lookupField c1Fields "options" = some (.arr (JSList.ofStrings ["a", "b", "c"])) ∧
    fetchOptions "/api/test" "get" "query" "test"
        (.httpResponse true 200 (.json (.obj c1Fields))) [] =
      { request := buildRequest "/api/test" "get" "query" "test",
        warnings := [],
        events := [.update (JSList.ofStrings ["a", "b", "c"])],
        datalist := [⟨"a", "a"⟩, ⟨"b", "b"⟩, ⟨"c", "c"⟩] } := by
  refine ⟨by decide, ?_⟩
  have h := fetch_success_replaces_list_and_emits_update "/api/test" "get"
    "query" "test" 200 c1Fields ["a", "b", "c"] [] (by decide)
  simpa using h

/-- C2: the request built by `__fetchOptions` from endpoint `e`,
configured method `m`, key `k` and query value `v` is: when `m`
lower-cases to `post`, a POST to `e` with a
`Content-Type: application/json` header and body the JSON encoding of
the single-key object; for any other configured method, a GET whose
target is `e` followed by `?` and the single URL-encoded parameter. -/
theorem request_post_or_get_shape (e m k v : String) :
    (toLowerString m = "post" →
      buildRequest e m k v =
        .post e "application/json"
          ("\x7b" ++ jsonQuote k ++ ":" ++ jsonQuote v ++ "\x7d")) ∧
    (toLowerString m ≠ "post" →
      buildRequest e m k v =
        .get (e ++ "?" ++ formUrlencode k ++ "=" ++ formUrlencode v)) := by
  constructor
  · intro h
    simp only [buildRequest, if_pos h, jsonStringifyObj, List.map_cons,
      List.map_nil]
    simp only [intercalate_singleton, string_append_assoc]
  · intro h
    simp only [buildRequest, if_neg h, urlSearchParamsToString, List.map_cons,
      List.map_nil]
    simp only [intercalate_singleton, string_append_assoc]

/-- Witness for C2, at the spec's two examples: endpoint `/api/test`,
key `query`, value `test` yields target `/api/test?query=test` for
GET, and for POST the JSON body over the same payload. -/
theorem request_post_or_get_shape_witness :
    (toLowerString "post" = "post" ∧
      buildRequest "/api/test" "post" "query" "test" =
        .post "/api/test" "application/json" "\x7b\"query\":\"test\"\x7d") ∧
    (toLowerString "get" ≠ "post" ∧
      buildRequest "/api/test" "get" "query" "test" =
        .get "/api/test?query=test") := by
  refine ⟨⟨by decide, ?_⟩, ⟨by decide, ?_⟩⟩
  · have h := (request_post_or_get_shape "/api/test" "post" "query" "test").1 (by decide)
    rw [h]
    decide
  · have h := (request_post_or_get_shape "/api/test" "get" "query" "test").2 (by decide)
    rw [h]
    decide

/-- C4: every failing fetch (transport failure, non-`ok` response, or
body-decode failure) is caught by `__fetchOptions`: it produces
exactly one `console.warn` line and one `error` event carrying the
failure, and leaves the datalist unmodified.  Totality of
`fetchOptions` embeds the surrounding `try`/`catch`: no failure
escapes to the host page. -/
theorem fetch_failure_caught_logged_reported (e m k q msg : String)
    (out : FetchOutcome) (dl : List OptionEntry)
    (hfail : failureMsg out = some msg) :
    fetchOptions e m k q out dl =
      { request := buildRequest e m k q,
        warnings := [warnMessage ("Failed to fetch options: " ++ msg)],
        events := [.error msg],
        datalist := dl } := by
  cases out with
  | networkFailure m2 =>
    simp only [failureMsg, Option.some.injEq] at hfail
    subst hfail
    simp [fetchOptions, fetchOptionsTry]
  | httpResponse ok status body =>
    cases ok with
    | false =>
      simp only [failureMsg, if_neg, Bool.false_eq_true, reduceIte,
        Option.some.injEq] at hfail
      subst hfail
      simp [fetchOptions, fetchOptionsTry]
    | true =>
      cases body with
      | parseFailure m2 =>
        simp only [failureMsg, reduceIte, Option.some.injEq] at hfail
        subst hfail
        simp [fetchOptions, fetchOptionsTry]
      | json data =>
        simp [failureMsg] at hfail

/-- Witness for C4: a rejected fetch (transport failure `Network
error`, as in the repository's test suite). -/
theorem fetch_failure_caught_logged_reported_witness :
    failureMsg (.networkFailure "Network error") = some "Network error" ∧
    fetchOptions "/api/test" "get" "query" "test"
        (.networkFailure "Network error") [⟨"a", "a"⟩] =
      { request := buildRequest "/api/test" "get" "query" "test",
        warnings :=
          [warnMessage ("Failed to fetch options: " ++ "Network error")],
        events := [.error "Network error"],
        datalist := [⟨"a", "a"⟩] } := by
  refine ⟨by decide, ?_⟩
  exact fetch_failure_caught_logged_reported "/api/test" "get" "query" "test"
    "Network error" (.networkFailure "Network error") [⟨"a", "a"⟩] rfl

/-- C9: a successful (`ok`) response whose decoded body yields no
recognizable options array (the `options` access yields a missing,
non-array, or otherwise falsy value) leaves the datalist untouched and
emits no event at all — in particular no `update` event. -/
theorem fetch_success_without_options_silent_noop
    (e m k q : String) (status : Nat) (data opts : JSValue)
    (dl : List OptionEntry)
    (hget : jsGet data "options" = .ok opts)
    (hno : (truthy opts && isArray opts) = false) :
    fetchOptions e m k q (.httpResponse true status (.json data)) dl =
      { request := buildRequest e m k q,
        warnings := [],
        events := [],
        datalist := dl } := by
  simp [fetchOptions, fetchOptionsTry, hget, hno]

/-- Witness for C9: a successful response whose body is an object
without an `options` field. -/
theorem fetch_success_without_options_silent_noop_witness :
    jsGet (.obj (.cons "foo" (.str "x") .nil)) "options" = .ok .undefined ∧
    (truthy JSValue.undefined && isArray JSValue.undefined) = false ∧
    fetchOptions "/api/test" "get" "query" "test"
        (.httpResponse true 200 (.json (.obj (.cons "foo" (.str "x") .nil))))
        [⟨"a", "a"⟩] =
      { request := buildRequest "/api/test" "get" "query" "test",
        warnings := [],
        events := [],
        datalist := [⟨"a", "a"⟩] } := by
  refine ⟨rfl, by decide, ?_⟩
  exact fetch_success_without_options_silent_noop "/api/test" "get" "query"
    "test" 200 (.obj (.cons "foo" (.str "x") .nil)) .undefined [⟨"a", "a"⟩]
    rfl (by decide)

/-- C10: a successful response whose body is exactly
`options: []` passes the options-field check (an empty JS array is
truthy), so the datalist is cleared to zero entries and an `update`
event fires carrying the empty options array. -/
theorem fetch_empty_options_clears_list_and_updates
    (e m k q : String) (status : Nat) (dl : List OptionEntry) :
    fetchOptions e m k q
        (.httpResponse true status
          (.json (.obj (.cons "options" (.arr .nil) .nil)))) dl =
      { request := buildRequest e m k q,
        warnings := [],
        events := [.update .nil],
        datalist := [] } := by
  simp [fetchOptions, fetchOptionsTry, jsGet, lookupField, truthy, isArray,
        jsArrElems, updateDatalist, JSList.toList]

/-- C3: a rapid sequence of qualifying keystrokes (each gap shorter
than the debounce period) followed by a quiet pause of at least the
debounce period issues exactly one fetch, and the fetched query equals
the input's value at the moment the timer elapses (nothing changed the
input during the pause, so that value is the last keystroke's value). -/
theorem rapid_burst_single_fetch (mid : List (Nat × String × Nat))
    (code : Nat) (vLast : String) (pause : Nat) (s : WidgetState)
    (hl : s.listenerAttached = true)
    (hmid : ∀ x ∈ mid, qualifyingKeystroke x.1 x.2.1 = true ∧ x.2.2 < debounceDelay)
    (hlast : qualifyingKeystroke code vLast = true)
    (hpause : debounceDelay ≤ pause) :
    (run s (burst mid ++ [.keyup code vLast, .elapse pause])).fetches
        = s.fetches ++ [vLast] ∧
    (run s (burst mid ++ [.keyup code vLast, .elapse pause])).inputValue
        = vLast := by
  induction mid generalizing s with
  | nil =>
    obtain ⟨hi, hv⟩ := qualifying_split code vLast hlast
    rw [burst, List.nil_append, run_cons,
      step_keyup_schedules s code vLast hl hi hv, run_cons,
      step_elapse_fires _ pause (s.now + debounceDelay) vLast rfl
        (by show s.now + debounceDelay ≤ s.now + pause; omega)]
    exact ⟨rfl, rfl⟩
  | cons x rest ih =>
    obtain ⟨c0, v0, g0⟩ := x
    obtain ⟨hq0, hg0'⟩ := hmid _ (List.mem_cons_self _ rest)
    have hg0 : g0 < debounceDelay := hg0'
    obtain ⟨hi0, hv0⟩ := qualifying_split c0 v0 hq0
    rw [burst, List.cons_append, List.cons_append, run_cons,
      step_keyup_schedules s c0 v0 hl hi0 hv0, run_cons,
      step_elapse_waits _ g0 (s.now + debounceDelay) v0 rfl
        (by show ¬ s.now + debounceDelay ≤ s.now + g0; omega)]
    exact ih _ hl fun y hy => hmid y (List.mem_cons_of_mem _ hy)

/-- Witness for C3: one preliminary keystroke (`t`, 100 ms gap), a
final keystroke (`te`), then a 250 ms pause: exactly one fetch, for
`te`, the input value when the timer elapses. -/
theorem rapid_burst_single_fetch_witness :
    (run initialWidget
        (burst [(65, "t", 100)] ++ [.keyup 66 "te", .elapse 250])).fetches
      = ["te"] ∧
    (run initialWidget
        (burst [(65, "t", 100)] ++ [.keyup 66 "te", .elapse 250])).inputValue
      = "te" := by
  have h := rapid_burst_single_fetch [(65, "t", 100)] 66 "te" 250
    initialWidget rfl (by decide) (by decide) (by decide)
  exact ⟨h.1, h.2⟩

/-- C5: a key release whose code is 9 (tab), 13 (enter), 38 (up) or
40 (down) is ignored entirely, whatever the input value: the pending
timer (if any) is neither reset nor cancelled and no fetch happens. -/
theorem ignored_keys_no_schedule_no_cancel (s : WidgetState) (code : Nat)
    (v : String) (h : code = 9 ∨ code = 13 ∨ code = 38 ∨ code = 40) :
    (step s (.keyup code v)).pendingTimer = s.pendingTimer ∧
    (step s (.keyup code v)).fetches = s.fetches := by
  have hik : ignoredKey code = true := by
    rcases h with h | h | h | h <;> subst h <;> decide
  by_cases hl : s.listenerAttached = false <;> simp [step, hl, hik]

/-- Witness for C5: a tab release on a widget with a pending timer
leaves the timer and the fetch log untouched. -/
theorem ignored_keys_no_schedule_no_cancel_witness :
    (step busyWidget (.keyup 9 "abc")).pendingTimer = some (250, "ab") ∧
    (step busyWidget (.keyup 9 "abc")).fetches = [] := by
  have h := ignored_keys_no_schedule_no_cancel busyWidget 9 "abc" (Or.inl rfl)
  exact ⟨h.1, h.2⟩

/-- C6 counterexample: the claim says a non-ignored key release with an
empty input value does not cancel an already-pending debounce timer.
On `busyWidget`, whose timer (deadline 250, value `ab`) would fire
within the next 1000 ms, a qualifying-code key release with empty
value cancels the timer (`clearTimeout` runs before the value check in
`__handleKeyup`), and the scheduled fetch never happens. -/
theorem empty_value_keystroke_cancels_timer_cex :
    (step busyWidget (.keyup 65 "")).pendingTimer = none ∧
    (run busyWidget [.keyup 65 "", .elapse 1000]).fetches = [] := by
  decide

/-- C6 amended: a non-ignored key release with an empty input value
schedules no fetch and cancels any already-pending debounce timer. -/
theorem empty_value_cancels_pending_timer (s : WidgetState) (code : Nat)
    (hl : s.listenerAttached = true) (hi : ignoredKey code = false) :
    (step s (.keyup code "")).pendingTimer = none ∧
    (step s (.keyup code "")).fetches = s.fetches := by
  simp [step, hl, hi]

/-- Witness for C6 (amended form), on `busyWidget`. -/
theorem empty_value_cancels_pending_timer_witness :
    (step busyWidget (.keyup 65 "")).fetches = [] ∧
    (step busyWidget (.keyup 65 "")).pendingTimer = none := by
  have h := empty_value_cancels_pending_timer busyWidget 65 rfl (by decide)
  exact ⟨h.2, h.1⟩

/-- C7 counterexample: the claim says no fetch fires after detachment
when the teardown happens before the timer elapses.  From a fresh
widget, a qualifying keystroke schedules the timer (deadline 250),
the element is detached at time 0 (before the timer elapses), yet
when time passes the timer still fires and the fetch happens:
`disconnectedCallback` removes the keyup listener but does not clear
`__debounceTimer`. -/
theorem detached_pending_timer_still_fetches_cex :
    (run initialWidget [.keyup 65 "a", .disconnect, .elapse 300]).fetches
      = ["a"] := by
  decide

/-- C7 amended: detaching removes the keyup listener, so later key
releases neither schedule a timer nor fetch; but a debounce timer
pending at detachment is not cancelled, and its fetch still fires when
the timer elapses. -/
theorem disconnect_removes_listener_timer_survives (s : WidgetState)
    (code : Nat) (v : String) (t d : Nat) (w : String)
    (hp : s.pendingTimer = some (d, w)) (hd : d ≤ s.now + t) :
    (step s .disconnect).listenerAttached = false ∧
    (step (step s .disconnect) (.keyup code v)).pendingTimer = s.pendingTimer ∧
    (step (step s .disconnect) (.keyup code v)).fetches = s.fetches ∧
    (step (step s .disconnect) (.elapse t)).fetches = s.fetches ++ [w] := by
  refine ⟨rfl, ?_, ?_, ?_⟩
  · simp [step]
  · simp [step]
  · simp [step, hp, hd]

/-- Witness for C7 (amended form), on `busyWidget`. -/
theorem disconnect_removes_listener_timer_survives_witness :
    (step busyWidget .disconnect).listenerAttached = false ∧
    (step (step busyWidget .disconnect) (.keyup 65 "abc")).pendingTimer
      = some (250, "ab") ∧
    (step (step busyWidget .disconnect) (.keyup 65 "abc")).fetches = [] ∧
    (step (step busyWidget .disconnect) (.elapse 300)).fetches = ["ab"] := by
  have h := disconnect_removes_listener_timer_survives busyWidget 65 "abc"
    300 250 "ab" rfl (by decide)
  exact ⟨h.1, h.2.1, h.2.2.1, h.2.2.2⟩

/-- C8 counterexample: the claim says that for every value assigned to
the `method` property before attachment, after attachment the property
read and the attribute both yield that value.  For the empty string,
the upgrade does re-apply the value through the setter (the attribute
becomes the empty string), but the property read yields the default
`get`, because the getter is `getAttribute('method') || 'get'` and the
empty string is falsy. -/
theorem preinit_empty_method_value_not_readable_cex :
    (connectUpgrade
        { attrs := { endpoint := none, method := none, key := none },
          ownMethod := some (some "") }).attrs.method = some "" ∧
    getMethodProp
        (connectUpgrade
          { attrs := { endpoint := none, method := none, key := none },
            ownMethod := some (some "") }).attrs = "get" := by
  decide

/-- C8 amended: every string value assigned to `endpoint`, `method` or
`key` before attachment is re-applied through the normal setter at
attachment (the own property is deleted and the attribute receives the
value), and the property read also yields that value except that an
empty string assigned to `method` or `key` reads back as the default
(`get` / `query`). -/
theorem upgrade_preserves_preinit_values (a : AttrStore) (ve vm vk : String)
    (hm : vm ≠ "") (hk : vk ≠ "") :
    (connectUpgrade (preinitElement a ve vm vk)).ownEndpoint = none ∧
    (connectUpgrade (preinitElement a ve vm vk)).ownMethod = none ∧
    (connectUpgrade (preinitElement a ve vm vk)).ownKey = none ∧
    (connectUpgrade (preinitElement a ve vm vk)).attrs.endpoint = some ve ∧
    getEndpointProp (connectUpgrade (preinitElement a ve vm vk)).attrs
      = some ve ∧
    (connectUpgrade (preinitElement a ve vm vk)).attrs.method = some vm ∧
    getMethodProp (connectUpgrade (preinitElement a ve vm vk)).attrs = vm ∧
    (connectUpgrade (preinitElement a ve vm vk)).attrs.key = some vk ∧
    getKeyProp (connectUpgrade (preinitElement a ve vm vk)).attrs = vk := by
  refine ⟨rfl, rfl, rfl, rfl, rfl, rfl, ?_, rfl, ?_⟩
  · simp [preinitElement, connectUpgrade, upgradeEndpoint, upgradeMethod,
      upgradeKey, setEndpointProp, setMethodProp, setKeyProp, getMethodProp,
      hm]
  · simp [preinitElement, connectUpgrade, upgradeEndpoint, upgradeMethod,
      upgradeKey, setEndpointProp, setMethodProp, setKeyProp, getKeyProp, hk]

/-- Witness for C8 (amended form), at the values used by the
repository's lazy-upgrade tests. -/
theorem upgrade_preserves_preinit_values_witness :
    (connectUpgrade
        (preinitElement { endpoint := none, method := none, key := none }
          "/api/early-set" "post" "term")).attrs =
      { endpoint := some "/api/early-set", method := some "post",
        key := some "term" } ∧
    getMethodProp
        (connectUpgrade
          (preinitElement { endpoint := none, method := none, key := none }
            "/api/early-set" "post" "term")).attrs = "post" ∧
    getKeyProp
        (connectUpgrade
          (preinitElement { endpoint := none, method := none, key := none }
            "/api/early-set" "post" "term")).attrs = "term" := by
  have h := upgrade_preserves_preinit_values
    { endpoint := none, method := none, key := none }
    "/api/early-set" "post" "term" (by decide) (by decide)
  exact ⟨by decide, h.2.2.2.2.2.2.1, h.2.2.2.2.2.2.2.2⟩

end DynamicDatalist
